import Mathlib

/-!
Verification development for the browser client of a three-stage document
ingestion pipeline (load → chunk → parse).  Each page of the client
(`LoadFile.jsx`, `ChunkFile.jsx`, `ParseFile.jsx`) is embedded shallowly:

* the React `useState` hooks of a page become the fields of a state record;
* an event handler becomes a pure function from the state (and an
  environment recording the outcome of every `fetch` it awaits) to the new
  state, paired with the list of HTTP requests it issued, in order;
* JSX preview rendering becomes a function from the result value to a
  display abstraction; JavaScript field accesses that can throw
  (`undefined.map`, `undefined[0]`) are made explicit in an `Except`.

JavaScript numbers that the pages only store and forward are modelled as
`Int` (they are only ever set from integral defaults or `Number(...)` of a
numeric input) and the two similarity thresholds as exact rationals; no
claim performs arithmetic on them.
-/

/-- Model of JavaScript `String.prototype.includes`: `sub` occurs
contiguously in `s` (the empty string occurs in everything). -/
def strIncludes (s sub : String) : Bool :=
  decide (sub.data <:+: s.data)

/-- Model of JavaScript `String.prototype.endsWith` at the character level. -/
def endsWithStr (s suf : String) : Bool :=
  decide (suf.data <:+ s.data)

/-- A JavaScript exception raised during rendering (`TypeError` from
reading a property of `undefined`/`null` or calling a missing method). -/
inductive JsError where
  | typeError
deriving DecidableEq

/-- The value found under a JSON key that the client expects to be an array
of segments: the key may be absent, `null`, some other non-array value, or
an actual array. -/
inductive SegField (α : Type) where
  | missing
  | nullVal
  | notArrayVal
  | arr (xs : List α)
deriving DecidableEq

/-- `Array.isArray` on a `SegField` value. -/
def SegField.isArr : SegField α → Bool
  | .arr _ => true
  | _ => false

/-- Indexing `v[0]` in JavaScript: throws on `undefined`/`null`, yields the
first element of an array, and yields nothing usable otherwise. -/
def jsIndexZero : SegField α → Except JsError (Option α)
  | .missing => .error .typeError
  | .nullVal => .error .typeError
  | .notArrayVal => .ok none
  | .arr xs => .ok xs.head?

/-- `v.map(render)` in JavaScript, keeping the segments as the row list:
throws a `TypeError` unless `v` is an actual array. -/
def jsArrayMap : SegField α → Except JsError (List α)
  | .arr xs => .ok xs
  | _ => .error .typeError

/-- Outcome of an awaited `fetch` whose response body is never read. -/
inductive SimpleOutcome where
  | transportError (msg : String)
  | response (ok : Bool) (status : Int)

/-- Outcome of an awaited `fetch` of a processing POST: transport failure,
a non-2xx response (whose JSON body may carry a `detail` field), or a 2xx
response with parsed data. -/
inductive PostOutcome (α : Type) where
  | transportError (msg : String)
  | httpError (status : Int) (detail : Option String)
  | success (data : α)

/-- The outcome is not a success. -/
def PostOutcome.isErr : PostOutcome α → Bool
  | .success _ => false
  | _ => true

/-- A document summary from a registry list response. -/
structure DocSummary where
  name : String
deriving DecidableEq

/-- The value found under the `documents` key of a registry list response:
possibly absent or not an array. -/
inductive ListFieldVal where
  | missing
  | notArray
  | arr (docs : List DocSummary)
deriving DecidableEq

/-- A file chosen in a file input (the client never reads its bytes). -/
structure FileRef where
  name : String
deriving DecidableEq

/-- The `chunking_config` record of a chunked artifact's detail. -/
structure ChunkingConfig where
  chunk_size : Option Int
  chunk_overlap : Option Int
  min_chunk_size : Option Int
  max_chunk_size : Option Int
  semantic_threshold : Option Rat
deriving DecidableEq

/-- The metadata record of a loaded/chunked segment, as read by the
previews (`chunk_id`, `page_number`, `word_count`, `page_range`, and the
text-loader extras). -/
structure SegMetadata where
  chunk_id : Int
  page_number : Option Int
  word_count : Option Int
  page_range : Option String
  encoding : Option String
  preserve_newlines : Option Bool
  char_count : Option Int
deriving DecidableEq

/-- One segment of a loaded or chunked result. -/
structure Segment where
  content : String
  metadata : SegMetadata
deriving DecidableEq

/-- The `loaded_content` payload of a `POST /load` response, as read by
`LoadFile.jsx` (fields the page reads; `chunks` may be malformed). -/
structure LoadedContent where
  filename : Option String
  total_pages : Option Int
  total_chunks : Option Int
  loading_method : Option String
  chunking_strategy : Option String
  loading_strategy : Option String
  chunking_method : Option String
  timestamp : Option String
  chunks : SegField Segment
deriving DecidableEq

/-- The result object stored in the `chunks` state of `ChunkFile.jsx`
(built field by field from a `POST /chunk` response, or fetched as a
chunked artifact's detail). -/
structure ChunkResult where
  filename : Option String
  total_pages : Option Int
  total_chunks : Option Int
  loading_method : Option String
  chunking_method : Option String
  chunking_config : Option ChunkingConfig
  timestamp : Option String
  chunks : SegField Segment
deriving DecidableEq

/-- The `metadata` record of a parsed result, as read by `ParseFile.jsx`. -/
structure ParsedMeta where
  total_pages : Option Int
  parsing_method : Option String
  timestamp : Option String
deriving DecidableEq

/-- One item of a parsed result's `content` array. -/
structure ParsedItem where
  type : Option String
  page : Option Int
  level : Option Int
  title : Option String
  content : String
deriving DecidableEq

/-- The `parsed_content` payload of a `POST /parse` response (`content`
may be malformed). -/
structure ParsedContent where
  metadata : Option ParsedMeta
  content : SegField ParsedItem
deriving DecidableEq

/-- A chunked document as held in `chunkedDocuments`: the list summary
merged with its fetched detail (detail fields absent when that per-document
fetch failed). -/
structure ChunkedDocInfo where
  name : String
  total_pages : Option Int
  total_chunks : Option Int
  chunking_method : Option String
  chunking_config : Option ChunkingConfig
  timestamp : Option String
deriving DecidableEq

/-- A parsed document summary from `GET /parsed-docs` (only the name is
consulted by the handlers; the other fields are display-only). -/
structure ParsedDocSummary where
  name : String
deriving DecidableEq

/-- The `text_config` record serialized by the Load page. -/
structure TextConfig where
  encoding : String
  preserveNewlines : Bool
  autoDetectEncoding : Bool
deriving DecidableEq

/-- The `unstructuredConfig` state of the Load page. -/
structure UnstructuredConfig where
  strategy : String
  include_page_breaks : Bool
  include_metadata : Bool
  languages : List String
  pdf_image_processor : String
deriving DecidableEq

/-- The `chunking_options` record serialized for the unstructured loading
method (the subset of `unstructuredConfig` without `strategy`). -/
structure UnstructuredOptions where
  include_page_breaks : Bool
  include_metadata : Bool
  languages : List String
  pdf_image_processor : String
deriving DecidableEq

/-- `csvConfig.hasHeader` starts as the empty string (auto-detect) and the
checkbox later assigns it a boolean, so its type is a union. -/
inductive CsvHeaderVal where
  | emptyStr
  | boolVal (b : Bool)
deriving DecidableEq

/-- The `csv_config` record serialized by the Load page. -/
structure CsvConfig where
  delimiter : String
  hasHeader : CsvHeaderVal
  sourceColumn : String
deriving DecidableEq

/-- The JSON body of `POST /chunk` as built in `handleChunk`.  The source
object literal repeats the `semantic_threshold` key twice with the same
variable; a JavaScript object keeps a single such key, so it appears once
here. -/
structure ChunkRequestBody where
  doc_id : String
  chunking_option : String
  chunk_size : Int
  chunk_overlap : Int
  min_chunk_size : Int
  max_chunk_size : Int
  semantic_threshold : Rat
  merge_empty_pages : Bool
  merge_short_pages : Bool
  max_page_words : Int
  min_page_words : Int
  paragraph_separator : String
  sentence_separators : List String
  keep_separator : Bool
  semantic_chunk_size : Int
  semantic_chunk_overlap : Int
  semantic_sentence_separators : List String
  semantic_keep_separator : Bool
  semantic_min_chunk_size : Int
  semantic_max_chunk_size : Int
  hybrid_max_chunk_size : Int
  hybrid_min_chunk_size : Int
  hybrid_paragraph_separator : String
  hybrid_sentence_separators : List String
  hybrid_chunk_size : Int
  hybrid_chunk_overlap : Int
  hybrid_keep_separator : Bool
  hybrid_semantic_threshold : Rat
deriving DecidableEq

/-- The multipart body of `POST /load` as built in the Load page's
`handleProcess` (at most one of the three config attachments is present,
per the `if`/`else if` chain). -/
structure LoadFormData where
  fileName : String
  loading_method : String
  strategy : Option String
  chunking_options : Option UnstructuredOptions
  text_config : Option TextConfig
  csv_config : Option CsvConfig
deriving DecidableEq

/-- The multipart body of `POST /parse` as built in the Parse page's
`handleProcess`. -/
structure ParseFormData where
  fileName : String
  loading_method : String
  parsing_option : String
  file_type : String
deriving DecidableEq

/-- An HTTP request issued by the client, with enough of its content to
state the claims (method, path parameters, and serialized body). -/
inductive Request where
  | getDocuments (docType : String)
  | getDocumentDetail (name : String) (docType : String)
  | postChunk (body : ChunkRequestBody)
  | postLoad (body : LoadFormData)
  | postParse (body : ParseFormData)
  | deleteDocument (name : String) (docType : Option String)
  | getParsedDocs
  | getParsedDoc (name : String)
  | deleteParsedDoc (name : String)
deriving DecidableEq

/-- The `useState` hooks of `ChunkFile.jsx`, one field per hook (option
lists are constants of the view and are not part of the state). -/
structure ChunkFileState where
  loadedDocuments : ListFieldVal
  selectedDoc : String
  chunkingOption : String
  chunkSize : Int
  chunkOverlap : Int
  minChunkSize : Int
  maxChunkSize : Int
  semanticThreshold : Rat
  chunks : Option ChunkResult
  status : String
  activeTab : String
  processingStatus : String
  chunkedDocuments : List ChunkedDocInfo
  showAdvancedOptions : Bool
  mergeEmptyPages : Bool
  mergeShortPages : Bool
  maxPageWords : Int
  minPageWords : Int
  paragraphSeparator : String
  customParagraphSeparator : String
  sentenceSeparator : String
  customSentenceSeparator : String
  keepSeparator : Bool
  semanticChunkSize : Int
  semanticChunkOverlap : Int
  semanticSentenceSeparator : String
  semanticCustomSentenceSeparator : String
  semanticKeepSeparator : Bool
  semanticMinChunkSize : Int
  semanticMaxChunkSize : Int
  hybridMaxChunkSize : Int
  hybridMinChunkSize : Int
  hybridParagraphSeparator : String
  hybridCustomParagraphSeparator : String
  hybridSentenceSeparator : String
  hybridCustomSentenceSeparator : String
  hybridChunkSize : Int
  hybridChunkOverlap : Int
  hybridKeepSeparator : Bool
  hybridSemanticThreshold : Rat
deriving DecidableEq

/-- The initial `ChunkFile` state, from the `useState` defaults.  The
literal `'\\n\\n'` of the paragraph preset is the two-character escape
sequence written out (backslash-n twice), unlike the hybrid preset which
holds real newlines; the JavaScript float literals `0.7` are modelled as
the exact rational. -/
def initialChunkFileState : ChunkFileState :=
  { loadedDocuments := .arr []
    selectedDoc := ""
    chunkingOption := "by_pages"
    chunkSize := 1000
    chunkOverlap := 200
    minChunkSize := 100
    maxChunkSize := 5000
    semanticThreshold := (7 : Rat) / 10
    chunks := none
    status := ""
    activeTab := "chunks"
    processingStatus := ""
    chunkedDocuments := []
    showAdvancedOptions := false
    mergeEmptyPages := false
    mergeShortPages := false
    maxPageWords := 2000
    minPageWords := 50
    paragraphSeparator := "\\n\\n"
    customParagraphSeparator := ""
    sentenceSeparator := "。|！|？"
    customSentenceSeparator := ""
    keepSeparator := false
    semanticChunkSize := 1000
    semanticChunkOverlap := 200
    semanticSentenceSeparator := "。|！|？"
    semanticCustomSentenceSeparator := ""
    semanticKeepSeparator := false
    semanticMinChunkSize := 1
    semanticMaxChunkSize := 5000
    hybridMaxChunkSize := 5000
    hybridMinChunkSize := 1
    hybridParagraphSeparator := "\n\n"
    hybridCustomParagraphSeparator := ""
    hybridSentenceSeparator := "。|！|？"
    hybridCustomSentenceSeparator := ""
    hybridChunkSize := 1000
    hybridChunkOverlap := 200
    hybridKeepSeparator := false
    hybridSemanticThreshold := (7 : Rat) / 10 }

/-- The six values of the chunking-method select. -/
def chunkingMethods : List String :=
  ["by_pages", "fixed_size", "by_paragraphs", "by_sentences", "semantic", "hybrid"]

namespace ChunkFile

/-- Outcome of the unchecked `GET /documents?type=loaded` list fetch (its
`response.ok` is never consulted; only `json()` can fail in transport). -/
inductive ListFetchOutcome where
  | transportError (msg : String)
  | success (documents : ListFieldVal)

/-- Outcome of the checked `GET /documents?type=chunked` list fetch. -/
inductive ChunkedListOutcome where
  | transportError (msg : String)
  | httpError (status : Int)
  | success (documents : ListFieldVal)

/-- Outcome of one `GET /documents/{name}?type=chunked` detail fetch. -/
inductive DetailOutcome where
  | transportError (msg : String)
  | httpError (status : Int)
  | success (total_pages : Option Int) (total_chunks : Option Int)
      (chunking_method : Option String) (chunking_config : Option ChunkingConfig)
      (timestamp : Option String)

/-- Responses seen by one run of `fetchLoadedDocuments`. -/
structure RefreshEnv where
  loadedOutcome : ListFetchOutcome
  chunkedOutcome : ChunkedListOutcome
  detailFor : String → DetailOutcome

/-- The per-document merge in `fetchLoadedDocuments`: a successful detail
fetch spreads its fields over the summary, a failed one falls back to the
bare summary. -/
def mergeChunkedDetail (d : DocSummary) : DetailOutcome → ChunkedDocInfo
  | .success tp tc cm cc ts =>
      { name := d.name, total_pages := tp, total_chunks := tc,
        chunking_method := cm, chunking_config := cc, timestamp := ts }
  | _ =>
      { name := d.name, total_pages := none, total_chunks := none,
        chunking_method := none, chunking_config := none, timestamp := none }

/-- `fetchLoadedDocuments` of `ChunkFile.jsx`: refreshes the loaded list,
then the chunked list (aborting with a status message on HTTP/transport
failure), validates that `documents` is an array (silently returning
otherwise), and fetches every chunked document's detail. -/
def fetchLoadedDocuments (s : ChunkFileState) (env : RefreshEnv) :
    List Request × ChunkFileState :=
  match env.loadedOutcome with
  | .transportError m =>
      ([Request.getDocuments "loaded"],
       { s with processingStatus := s!"Error fetching documents: {m}" })
  | .success docsVal =>
      let s1 := { s with loadedDocuments := docsVal }
      match env.chunkedOutcome with
      | .transportError m =>
          ([Request.getDocuments "loaded", Request.getDocuments "chunked"],
           { s1 with processingStatus := s!"Error fetching documents: {m}" })
      | .httpError n =>
          ([Request.getDocuments "loaded", Request.getDocuments "chunked"],
           { s1 with processingStatus :=
               "Error fetching documents: HTTP error! status: " ++ toString n })
      | .success chunkedVal =>
          match chunkedVal with
          | .arr docs =>
              ([Request.getDocuments "loaded", Request.getDocuments "chunked"]
                 ++ docs.map (fun d => Request.getDocumentDetail d.name "chunked"),
               { s1 with chunkedDocuments :=
                   docs.map (fun d => mergeChunkedDetail d (env.detailFor d.name)) })
          | _ =>
              ([Request.getDocuments "loaded", Request.getDocuments "chunked"], s1)

/-- The JSON body serialized in `handleChunk`'s `fetch` call, field by
field from the state; the separator fields inline the
`preset === 'custom' ? custom : preset` ternaries of the source, with
sentence-type values split on `'|'`. -/
def requestBody (s : ChunkFileState) : ChunkRequestBody :=
  { doc_id := if endsWithStr s.selectedDoc ".json" then s.selectedDoc
              else s.selectedDoc ++ ".json"
    chunking_option := s.chunkingOption
    chunk_size := s.chunkSize
    chunk_overlap := s.chunkOverlap
    min_chunk_size := s.minChunkSize
    max_chunk_size := s.maxChunkSize
    semantic_threshold := s.semanticThreshold
    merge_empty_pages := s.mergeEmptyPages
    merge_short_pages := s.mergeShortPages
    max_page_words := s.maxPageWords
    min_page_words := s.minPageWords
    paragraph_separator :=
      if s.paragraphSeparator = "custom" then s.customParagraphSeparator
      else s.paragraphSeparator
    sentence_separators :=
      if s.sentenceSeparator = "custom" then s.customSentenceSeparator.splitOn "|"
      else s.sentenceSeparator.splitOn "|"
    keep_separator := s.keepSeparator
    semantic_chunk_size := s.semanticChunkSize
    semantic_chunk_overlap := s.semanticChunkOverlap
    semantic_sentence_separators :=
      if s.semanticSentenceSeparator = "custom" then
        s.semanticCustomSentenceSeparator.splitOn "|"
      else s.semanticSentenceSeparator.splitOn "|"
    semantic_keep_separator := s.semanticKeepSeparator
    semantic_min_chunk_size := s.semanticMinChunkSize
    semantic_max_chunk_size := s.semanticMaxChunkSize
    hybrid_max_chunk_size := s.hybridMaxChunkSize
    hybrid_min_chunk_size := s.hybridMinChunkSize
    hybrid_paragraph_separator :=
      if s.hybridParagraphSeparator = "custom" then s.hybridCustomParagraphSeparator
      else s.hybridParagraphSeparator
    hybrid_sentence_separators :=
      if s.hybridSentenceSeparator = "custom" then
        s.hybridCustomSentenceSeparator.splitOn "|"
      else s.hybridSentenceSeparator.splitOn "|"
    hybrid_chunk_size := s.hybridChunkSize
    hybrid_chunk_overlap := s.hybridChunkOverlap
    hybrid_keep_separator := s.hybridKeepSeparator
    hybrid_semantic_threshold := s.hybridSemanticThreshold }

/-- Responses seen by one run of `handleChunk`. -/
structure Env where
  chunkResp : PostOutcome ChunkResult
  refresh : RefreshEnv

/-- `handleChunk` of `ChunkFile.jsx`.  With no document or no method
selected it only sets the status and returns; otherwise it clears the
displayed result, posts the flattened body, and on success stores the
result field by field and refreshes the document lists.  The error branch
throws `HTTP error! status: …` without reading the response body. -/
def handleChunk (s : ChunkFileState) (env : Env) :
    List Request × ChunkFileState :=
  if s.selectedDoc = "" ∨ s.chunkingOption = "" then
    ([], { s with status := "请选择文档和分块方法" })
  else
    let s1 := { s with status := "处理中...", chunks := none }
    let body := requestBody s1
    match env.chunkResp with
    | .transportError m =>
        ([Request.postChunk body], { s1 with status := s!"错误: {m}" })
    | .httpError n _ =>
        ([Request.postChunk body],
         { s1 with status := "错误: HTTP error! status: " ++ toString n })
    | .success data =>
        let s2 := { s1 with
          chunks := some
            { filename := data.filename, total_pages := data.total_pages,
              total_chunks := data.total_chunks, loading_method := data.loading_method,
              chunking_method := data.chunking_method,
              chunking_config := data.chunking_config,
              timestamp := data.timestamp, chunks := data.chunks },
          status := "分块完成！" }
        let r := fetchLoadedDocuments s2 env.refresh
        (Request.postChunk body :: r.1, r.2)

/-- Responses seen by one run of the Chunk page's `handleDeleteDocument`. -/
structure DeleteEnv where
  delOutcome : SimpleOutcome
  refresh : RefreshEnv

/-- `handleDeleteDocument` of `ChunkFile.jsx`: deletes the chunked
artifact, refreshes the lists on success, and clears the selection plus
the displayed result only when the deleted name equals `selectedDoc`. -/
def handleDeleteDocument (s : ChunkFileState) (docName : String)
    (env : DeleteEnv) : List Request × ChunkFileState :=
  match env.delOutcome with
  | .transportError m =>
      ([Request.deleteDocument docName (some "chunked")],
       { s with processingStatus := s!"删除文档时出错: {m}" })
  | .response ok status =>
      if ok then
        let r := fetchLoadedDocuments
          { s with processingStatus := "文档删除成功" } env.refresh
        let s3 := if s.selectedDoc = docName then
                    { r.2 with selectedDoc := "", chunks := none }
                  else r.2
        (Request.deleteDocument docName (some "chunked") :: r.1, s3)
      else
        ([Request.deleteDocument docName (some "chunked")],
         { s with processingStatus :=
             "删除文档时出错: HTTP error! status: " ++ toString status })

/-- The `onChange` of the document select: only the selection hook is
written. -/
def selectedDocOnChange (s : ChunkFileState) (v : String) : ChunkFileState :=
  { s with selectedDoc := v }

/-- The `onChange` of the chunking-method select: only the method hook is
written. -/
def chunkingOptionOnChange (s : ChunkFileState) (v : String) : ChunkFileState :=
  { s with chunkingOption := v }

/-- What the chunks tab of the right panel shows. -/
inductive PreviewOut where
  | emptyMarker (msg : String)
  | info (c : ChunkResult) (rows : List Segment)
deriving DecidableEq

/-- The chunks tab of `renderRightPanel`: without a result it shows the
placeholder image; with one it shows the info block and, thanks to the
`Array.isArray(chunks.chunks) &&` guard, the chunk rows only when `chunks`
is an actual array (rendering nothing, and never throwing, otherwise). -/
def renderPreview : Option ChunkResult → PreviewOut
  | none => .emptyMarker "选择文档并创建分块以查看结果"
  | some c => .info c (match c.chunks with | .arr xs => xs | _ => [])

end ChunkFile

/-- The `useState` hooks of `LoadFile.jsx`, one field per hook. -/
structure LoadFileState where
  file : Option FileRef
  loadingMethod : String
  unstructuredStrategy : String
  loadedContent : Option LoadedContent
  status : String
  documents : ListFieldVal
  activeTab : String
  selectedDoc : Option DocSummary
  fileType : Option String
  textConfig : TextConfig
  unstructuredConfig : UnstructuredConfig
  csvConfig : CsvConfig
deriving DecidableEq

/-- The initial `LoadFile` state, from the `useState` defaults. -/
def initialLoadFileState : LoadFileState :=
  { file := none
    loadingMethod := "pymupdf"
    unstructuredStrategy := "fast"
    loadedContent := none
    status := ""
    documents := .arr []
    activeTab := "preview"
    selectedDoc := none
    fileType := none
    textConfig := { encoding := "utf-8", preserveNewlines := true,
                    autoDetectEncoding := false }
    unstructuredConfig := { strategy := "fast", include_page_breaks := true,
                            include_metadata := true, languages := ["eng"],
                            pdf_image_processor := "auto" }
    csvConfig := { delimiter := "", hasHeader := .emptyStr, sourceColumn := "" } }

namespace LoadFile

/-- Outcome of the Load page's unchecked `GET /documents?type=loaded`. -/
inductive ListFetchOutcome where
  | transportError (msg : String)
  | success (documents : ListFieldVal)

/-- Responses seen by one run of `fetchDocuments`. -/
structure RefreshEnv where
  outcome : ListFetchOutcome

/-- `fetchDocuments` of `LoadFile.jsx`: one list fetch; a failure is only
logged, leaving the state untouched. -/
def fetchDocuments (s : LoadFileState) (env : RefreshEnv) :
    List Request × LoadFileState :=
  match env.outcome with
  | .transportError _ => ([Request.getDocuments "loaded"], s)
  | .success docsVal =>
      ([Request.getDocuments "loaded"], { s with documents := docsVal })

/-- `handleFileChange` of `LoadFile.jsx`: records the file and its
lower-cased extension (`name.split('.').pop().toLowerCase()`) and derives
the default loading method for known extensions.  The displayed result is
not touched. -/
def handleFileChange (s : LoadFileState) (selectedFile : Option FileRef) :
    LoadFileState :=
  match selectedFile with
  | none => s
  | some f =>
      let fileExt := ((f.name.splitOn ".").getLastD "").toLower
      if fileExt = "txt" then
        { s with fileType := some fileExt, file := some f, loadingMethod := "text" }
      else if fileExt = "pdf" then
        { s with fileType := some fileExt, file := some f, loadingMethod := "pymupdf" }
      else if fileExt = "csv" then
        { s with fileType := some fileExt, file := some f, loadingMethod := "csv" }
      else if fileExt = "md" then
        { s with fileType := some fileExt, file := some f, loadingMethod := "md" }
      else
        { s with fileType := some fileExt, file := some f }

/-- The multipart body built in the Load page's `handleProcess`: the file
and method always, plus exactly one method-specific config per the
`if`/`else if` chain. -/
def formData (s : LoadFileState) (f : FileRef) : LoadFormData :=
  if s.loadingMethod = "unstructured" then
    { fileName := f.name, loading_method := s.loadingMethod,
      strategy := some s.unstructuredConfig.strategy,
      chunking_options := some
        { include_page_breaks := s.unstructuredConfig.include_page_breaks,
          include_metadata := s.unstructuredConfig.include_metadata,
          languages := s.unstructuredConfig.languages,
          pdf_image_processor := s.unstructuredConfig.pdf_image_processor },
      text_config := none, csv_config := none }
  else if s.loadingMethod = "text" then
    { fileName := f.name, loading_method := s.loadingMethod, strategy := none,
      chunking_options := none, text_config := some s.textConfig,
      csv_config := none }
  else if s.loadingMethod = "csv" then
    { fileName := f.name, loading_method := s.loadingMethod, strategy := none,
      chunking_options := none, text_config := none,
      csv_config := some s.csvConfig }
  else
    { fileName := f.name, loading_method := s.loadingMethod, strategy := none,
      chunking_options := none, text_config := none, csv_config := none }

/-- The status set by the Load page's catch block: first `错误: …`, then
overwritten with the CSV checklist when the message mentions `CSV`. -/
def errStatus (m : String) : String :=
  if strIncludes m "CSV" then
    s!"CSV文件加载错误: {m}\n请检查：\n1. 文件编码是否正确\n2. 分隔符是否匹配\n3. 是否包含特殊字符\n4. 列名是否正确"
  else s!"错误: {m}"

/-- The message thrown for a non-2xx `/load` response:
`errorData.detail || HTTP error! status: n` (the JavaScript `||` falls
through on an absent or empty `detail`). -/
def httpErrMessage (n : Int) (detail : Option String) : String :=
  match detail with
  | some d => if d = "" then "HTTP error! status: " ++ toString n else d
  | none => "HTTP error! status: " ++ toString n

/-- Responses seen by one run of the Load page's `handleProcess`. -/
structure Env where
  loadResp : PostOutcome LoadedContent
  refresh : RefreshEnv

/-- `handleProcess` of `LoadFile.jsx`: guard on file and method, clear the
displayed result, post the form, and on success store `loaded_content`,
refresh the list and switch to the preview tab.  The non-2xx branch reads
the response's `detail` field for the thrown message. -/
def handleProcess (s : LoadFileState) (env : Env) :
    List Request × LoadFileState :=
  match s.file with
  | none => ([], { s with status := "请选择所有必需的选项" })
  | some f =>
      if s.loadingMethod = "" then
        ([], { s with status := "请选择所有必需的选项" })
      else
        let s1 := { s with status := "加载中...", loadedContent := none }
        let fd := formData s1 f
        match env.loadResp with
        | .transportError m =>
            ([Request.postLoad fd], { s1 with status := errStatus m })
        | .httpError n detail =>
            ([Request.postLoad fd],
             { s1 with status := errStatus (httpErrMessage n detail) })
        | .success lc =>
            let s2 := { s1 with loadedContent := some lc, status := "文件加载成功！" }
            let r := fetchDocuments s2 env.refresh
            (Request.postLoad fd :: r.1, { r.2 with activeTab := "preview" })

/-- `selectedDoc?.name === docName` of the delete handler. -/
def optNameMatches (o : Option DocSummary) (n : String) : Bool :=
  match o with
  | some d => d.name == n
  | none => false

/-- Responses seen by one run of the Load page's `handleDeleteDocument`. -/
structure DeleteEnv where
  delOutcome : SimpleOutcome
  refresh : RefreshEnv

/-- `handleDeleteDocument` of `LoadFile.jsx`: deletes the loaded artifact,
refreshes the list on success, and clears the selection plus the displayed
result only when the deleted name equals `selectedDoc?.name`. -/
def handleDeleteDocument (s : LoadFileState) (docName : String)
    (env : DeleteEnv) : List Request × LoadFileState :=
  match env.delOutcome with
  | .transportError m =>
      ([Request.deleteDocument docName none],
       { s with status := s!"Error deleting document: {m}" })
  | .response ok status =>
      if ok then
        let r := fetchDocuments
          { s with status := "Document deleted successfully" } env.refresh
        let cleared :=
          if optNameMatches s.selectedDoc docName then
            { r.2 with selectedDoc := none, loadedContent := none }
          else r.2
        (Request.deleteDocument docName none :: r.1, cleared)
      else
        ([Request.deleteDocument docName none],
         { s with status :=
             "Error deleting document: HTTP error! status: " ++ toString status })

/-- What the preview tab of the Load page shows when it does not throw. -/
inductive PreviewOut where
  | uploadMarker (msg : String)
  | rows (lc : LoadedContent) (xs : List Segment)
deriving DecidableEq

/-- The preview tab of `renderRightPanel`: without a result it shows the
placeholder image.  With one, the text-loader metadata block evaluates
`loadedContent.chunks[0]?.metadata` when the loading method is `text`
(throwing if `chunks` is absent or `null`), and the row list evaluates
`loadedContent.chunks.map(...)` unguarded (throwing whenever `chunks` is
not an actual array). -/
def renderPreview : Option LoadedContent → Except JsError PreviewOut
  | none =>
      .ok (.uploadMarker
        "Upload and load a file or select an existing document to see the results here")
  | some lc =>
      match (if lc.loading_method = some "text" then jsIndexZero lc.chunks
             else Except.ok none) with
      | .error e => .error e
      | .ok _ =>
          match jsArrayMap lc.chunks with
          | .error e => .error e
          | .ok xs => .ok (.rows lc xs)

end LoadFile

/-- The `useState` hooks of `ParseFile.jsx`, one field per hook
(`fileTypeConfig` is a constant of the view). -/
structure ParseFileState where
  file : Option FileRef
  loadingMethod : String
  parsingOption : String
  parsedContent : Option ParsedContent
  status : String
  docName : String
  isProcessed : Bool
  fileType : String
  tab : String
  parsedDocs : List ParsedDocSummary
  parsedLoading : Bool
  parsedError : String
deriving DecidableEq

/-- The initial `ParseFile` state, from the `useState` defaults. -/
def initialParseFileState : ParseFileState :=
  { file := none
    loadingMethod := "pymupdf"
    parsingOption := "all_text"
    parsedContent := none
    status := ""
    docName := ""
    isProcessed := false
    fileType := "pdf"
    tab := "preview"
    parsedDocs := []
    parsedLoading := false
    parsedError := "" }

namespace ParseFile

/-- Responses seen by one run of the Parse page's `handleProcess`. -/
structure Env where
  parseResp : PostOutcome ParsedContent

/-- `handleProcess` of `ParseFile.jsx`: guard on file, method and parsing
option, clear the displayed result, post the form.  On success it stores
`parsed_content` but issues no registry refresh; the non-2xx branch throws
`HTTP error! status: …` without reading the response body. -/
def handleProcess (s : ParseFileState) (env : Env) :
    List Request × ParseFileState :=
  match s.file with
  | none => ([], { s with status := "请选择所有必需的选项" })
  | some f =>
      if s.loadingMethod = "" ∨ s.parsingOption = "" then
        ([], { s with status := "请选择所有必需的选项" })
      else
        let s1 := { s with status := "处理中...", parsedContent := none,
                           isProcessed := false }
        let fd : ParseFormData :=
          { fileName := f.name, loading_method := s.loadingMethod,
            parsing_option := s.parsingOption, file_type := s.fileType }
        match env.parseResp with
        | .transportError m =>
            ([Request.postParse fd], { s1 with status := s!"错误: {m}" })
        | .httpError n _ =>
            ([Request.postParse fd],
             { s1 with status := "错误: HTTP error! status: " ++ toString n })
        | .success pc =>
            ([Request.postParse fd],
             { s1 with parsedContent := some pc, status := "处理完成！",
                       isProcessed := true })

/-- Outcome of `GET /parsed-docs/{name}` in `handleViewParsed` (the
response status is never checked; only `fetch`/`json()` failures reach the
catch). -/
inductive ViewOutcome where
  | transportError (msg : String)
  | success (data : ParsedContent)

/-- `handleViewParsed` of `ParseFile.jsx`: fetches a parsed artifact,
stores it as the displayed content and switches to the preview tab; on
failure the displayed content is set to `null`. -/
def handleViewParsed (s : ParseFileState) (docName : String)
    (env : ViewOutcome) : List Request × ParseFileState :=
  match env with
  | .transportError _ =>
      ([Request.getParsedDoc docName], { s with parsedContent := none })
  | .success data =>
      ([Request.getParsedDoc docName],
       { s with parsedContent := some data, tab := "preview" })

/-- Responses seen by one run of `handleDeleteParsed`: the
`window.confirm` answer and the DELETE outcome. -/
structure DeleteEnv where
  confirmed : Bool
  delOutcome : SimpleOutcome

/-- `handleDeleteParsed` of `ParseFile.jsx`: after the confirm dialog it
issues the DELETE (whose status is never checked) and removes the entry
from the local list by `filter`; it re-issues no list request and never
touches the displayed content.  A transport failure only alerts. -/
def handleDeleteParsed (s : ParseFileState) (docName : String)
    (env : DeleteEnv) : List Request × ParseFileState :=
  if env.confirmed then
    match env.delOutcome with
    | .transportError _ => ([Request.deleteParsedDoc docName], s)
    | .response _ _ =>
        ([Request.deleteParsedDoc docName],
         { s with parsedDocs := s.parsedDocs.filter (fun d => d.name != docName) })
  else ([], s)

/-- What the preview tab of the Parse page shows. -/
inductive PreviewOut where
  | uploadMarker (msg : String)
  | rows (items : List ParsedItem)
  | emptyMarker (msg : String)
deriving DecidableEq

/-- The preview tab of `ParseFile.jsx`: without content it shows the
placeholder image; with content, the
`Array.isArray(parsedContent?.content) && length > 0` guard renders the
item rows, falling back to the explicit empty-state line for a missing,
non-array, or empty `content` — never throwing. -/
def renderPreview : Option ParsedContent → PreviewOut
  | none => .uploadMarker "Upload and parse a file to see the results here"
  | some pc =>
      match pc.content with
      | .arr items =>
          if items.length > 0 then .rows items
          else .emptyMarker "无内容，建议检查后端返回结构或文档格式"
      | _ => .emptyMarker "无内容，建议检查后端返回结构或文档格式"

end ParseFile

/-- Appending a suffix makes `endsWithStr` true. -/
theorem endsWithStr_append (x suf : String) :
    endsWithStr (x ++ suf) suf = true := by
  simp only [endsWithStr, decide_eq_true_eq, String.data_append]
  exact List.suffix_append _ _

/-- `fetchLoadedDocuments` never writes the displayed result, the
selection, or the submit status of the Chunk page. -/
theorem chunkRefresh_frame (s : ChunkFileState) (env : ChunkFile.RefreshEnv) :
    (ChunkFile.fetchLoadedDocuments s env).2.chunks = s.chunks
  ∧ (ChunkFile.fetchLoadedDocuments s env).2.selectedDoc = s.selectedDoc
  ∧ (ChunkFile.fetchLoadedDocuments s env).2.status = s.status := by
  obtain ⟨lo, co, df⟩ := env
  cases lo with
  | transportError m => exact ⟨rfl, rfl, rfl⟩
  | success docsVal =>
      cases co with
      | transportError m => exact ⟨rfl, rfl, rfl⟩
      | httpError n => exact ⟨rfl, rfl, rfl⟩
      | success v => cases v <;> exact ⟨rfl, rfl, rfl⟩

/-- Every run of `fetchLoadedDocuments` starts by issuing the loaded-list
registry request. -/
theorem chunkRefresh_issues_list (s : ChunkFileState) (env : ChunkFile.RefreshEnv) :
    Request.getDocuments "loaded" ∈ (ChunkFile.fetchLoadedDocuments s env).1 := by
  obtain ⟨lo, co, df⟩ := env
  cases lo with
  | transportError m => simp [ChunkFile.fetchLoadedDocuments]
  | success docsVal =>
      cases co with
      | transportError m => simp [ChunkFile.fetchLoadedDocuments]
      | httpError n => simp [ChunkFile.fetchLoadedDocuments]
      | success v => cases v <;> simp [ChunkFile.fetchLoadedDocuments]

/-- `fetchDocuments` of the Load page issues exactly the loaded-list
request and touches neither the displayed result nor the selection. -/
theorem loadRefresh_spec (s : LoadFileState) (env : LoadFile.RefreshEnv) :
    (LoadFile.fetchDocuments s env).1 = [Request.getDocuments "loaded"]
  ∧ (LoadFile.fetchDocuments s env).2.loadedContent = s.loadedContent
  ∧ (LoadFile.fetchDocuments s env).2.selectedDoc = s.selectedDoc := by
  obtain ⟨o⟩ := env
  cases o <;> exact ⟨rfl, rfl, rfl⟩

/-- When the loaded-list fetch succeeds, `fetchLoadedDocuments` replaces
`loadedDocuments` wholesale with the response's list, and when the
chunked-list fetch also yields an array it replaces `chunkedDocuments`
wholesale with that response merged with its fetched details — neither
new list is computed from the previous one. -/
theorem chunkRefresh_replaces_lists (s : ChunkFileState)
    (env : ChunkFile.RefreshEnv) (docsVal : ListFieldVal)
    (hl : env.loadedOutcome = .success docsVal) :
    (ChunkFile.fetchLoadedDocuments s env).2.loadedDocuments = docsVal
  ∧ (∀ docs : List DocSummary, env.chunkedOutcome = .success (.arr docs) →
      (ChunkFile.fetchLoadedDocuments s env).2.chunkedDocuments
        = docs.map (fun d => ChunkFile.mergeChunkedDetail d (env.detailFor d.name))) := by
  obtain ⟨lo, co, df⟩ := env
  simp only at hl
  subst hl
  constructor
  · cases co with
    | transportError m => rfl
    | httpError n => rfl
    | success v => cases v <;> rfl
  · intro docs hc
    simp only at hc
    subst hc
    rfl

/-- When its fetch succeeds, `fetchDocuments` replaces `documents`
wholesale with the response's list, independent of the previous list. -/
theorem loadRefresh_replaces_list (s : LoadFileState)
    (env : LoadFile.RefreshEnv) (docsVal : ListFieldVal)
    (h : env.outcome = .success docsVal) :
    (LoadFile.fetchDocuments s env).2.documents = docsVal := by
  obtain ⟨o⟩ := env
  simp only at h
  subst h
  rfl

/-- C1: for each of the six chunking methods, a separator field whose
preset selector is the sentinel `"custom"` serializes the user-supplied
custom string into the `/chunk` body — split on `'|'` for the three
sentence-type fields, verbatim for the two paragraph-type fields — and a
non-`"custom"` preset serializes its literal value unchanged (sentence
presets still split on `'|'`). -/
theorem c1_custom_separator_resolution (s : ChunkFileState)
    (hopt : s.chunkingOption ∈ chunkingMethods) :
    (ChunkFile.requestBody s).sentence_separators
      = (if s.sentenceSeparator = "custom" then s.customSentenceSeparator
         else s.sentenceSeparator).splitOn "|"
  ∧ (ChunkFile.requestBody s).paragraph_separator
      = (if s.paragraphSeparator = "custom" then s.customParagraphSeparator
         else s.paragraphSeparator)
  ∧ (ChunkFile.requestBody s).semantic_sentence_separators
      = (if s.semanticSentenceSeparator = "custom" then
           s.semanticCustomSentenceSeparator
         else s.semanticSentenceSeparator).splitOn "|"
  ∧ (ChunkFile.requestBody s).hybrid_paragraph_separator
      = (if s.hybridParagraphSeparator = "custom" then
           s.hybridCustomParagraphSeparator
         else s.hybridParagraphSeparator)
  ∧ (ChunkFile.requestBody s).hybrid_sentence_separators
      = (if s.hybridSentenceSeparator = "custom" then
           s.hybridCustomSentenceSeparator
         else s.hybridSentenceSeparator).splitOn "|" := by
  refine ⟨?_, ?_, ?_, ?_, ?_⟩
  · by_cases h : s.sentenceSeparator = "custom" <;> simp [ChunkFile.requestBody, h]
  · by_cases h : s.paragraphSeparator = "custom" <;> simp [ChunkFile.requestBody, h]
  · by_cases h : s.semanticSentenceSeparator = "custom" <;>
      simp [ChunkFile.requestBody, h]
  · by_cases h : s.hybridParagraphSeparator = "custom" <;>
      simp [ChunkFile.requestBody, h]
  · by_cases h : s.hybridSentenceSeparator = "custom" <;>
      simp [ChunkFile.requestBody, h]

/-- A Chunk-page state with every separator preset on `"custom"`. -/
def c1WitState : ChunkFileState :=
  { initialChunkFileState with
      selectedDoc := "report", chunkingOption := "by_sentences",
      sentenceSeparator := "custom", customSentenceSeparator := "；|，",
      paragraphSeparator := "custom", customParagraphSeparator := "##",
      semanticSentenceSeparator := "custom", semanticCustomSentenceSeparator := ".|!",
      hybridParagraphSeparator := "custom", hybridCustomParagraphSeparator := "@@",
      hybridSentenceSeparator := "custom", hybridCustomSentenceSeparator := "?|;" }

/-- Witness for C1 at a concrete all-custom state. -/
theorem c1_custom_separator_resolution_witness :
    c1WitState.chunkingOption ∈ chunkingMethods
  ∧ ((ChunkFile.requestBody c1WitState).sentence_separators
       = (if c1WitState.sentenceSeparator = "custom" then
            c1WitState.customSentenceSeparator
          else c1WitState.sentenceSeparator).splitOn "|"
     ∧ (ChunkFile.requestBody c1WitState).paragraph_separator
       = (if c1WitState.paragraphSeparator = "custom" then
            c1WitState.customParagraphSeparator
          else c1WitState.paragraphSeparator)
     ∧ (ChunkFile.requestBody c1WitState).semantic_sentence_separators
       = (if c1WitState.semanticSentenceSeparator = "custom" then
            c1WitState.semanticCustomSentenceSeparator
          else c1WitState.semanticSentenceSeparator).splitOn "|"
     ∧ (ChunkFile.requestBody c1WitState).hybrid_paragraph_separator
       = (if c1WitState.hybridParagraphSeparator = "custom" then
            c1WitState.hybridCustomParagraphSeparator
          else c1WitState.hybridParagraphSeparator)
     ∧ (ChunkFile.requestBody c1WitState).hybrid_sentence_separators
       = (if c1WitState.hybridSentenceSeparator = "custom" then
            c1WitState.hybridCustomSentenceSeparator
          else c1WitState.hybridSentenceSeparator).splitOn "|") :=
  ⟨by decide, c1_custom_separator_resolution c1WitState (by decide)⟩

/-- C2 counterexample: `chunk_size` is not a parameter of `by_pages`, yet
switching the method from `fixed_size` (with `chunk_size` edited to 500)
to `by_pages` leaves it at 500 instead of resetting it to its default
1000 — the handler writes no field other than the method. -/
theorem c2_counterexample :
    (ChunkFile.chunkingOptionOnChange
        { initialChunkFileState with chunkingOption := "fixed_size", chunkSize := 500 }
        "by_pages").chunkSize = 500
  ∧ initialChunkFileState.chunkSize = 1000
  ∧ ((500 : Int) ≠ 1000) :=
  ⟨rfl, rfl, by decide⟩

/-- C2 (amended): switching the chunking method writes only the method
field; every parameter field — shared with the new variant or not — keeps
its current value, and none is reset to its default. -/
theorem c2_switch_keeps_all_parameters (s : ChunkFileState) (m : String) :
    (ChunkFile.chunkingOptionOnChange s m).chunkingOption = m
  ∧ (ChunkFile.chunkingOptionOnChange s m).chunkSize = s.chunkSize
  ∧ (ChunkFile.chunkingOptionOnChange s m).chunkOverlap = s.chunkOverlap
  ∧ (ChunkFile.chunkingOptionOnChange s m).minChunkSize = s.minChunkSize
  ∧ (ChunkFile.chunkingOptionOnChange s m).maxChunkSize = s.maxChunkSize
  ∧ (ChunkFile.chunkingOptionOnChange s m).semanticThreshold = s.semanticThreshold
  ∧ (ChunkFile.chunkingOptionOnChange s m).mergeEmptyPages = s.mergeEmptyPages
  ∧ (ChunkFile.chunkingOptionOnChange s m).mergeShortPages = s.mergeShortPages
  ∧ (ChunkFile.chunkingOptionOnChange s m).maxPageWords = s.maxPageWords
  ∧ (ChunkFile.chunkingOptionOnChange s m).minPageWords = s.minPageWords
  ∧ (ChunkFile.chunkingOptionOnChange s m).paragraphSeparator = s.paragraphSeparator
  ∧ (ChunkFile.chunkingOptionOnChange s m).customParagraphSeparator
      = s.customParagraphSeparator
  ∧ (ChunkFile.chunkingOptionOnChange s m).sentenceSeparator = s.sentenceSeparator
  ∧ (ChunkFile.chunkingOptionOnChange s m).customSentenceSeparator
      = s.customSentenceSeparator
  ∧ (ChunkFile.chunkingOptionOnChange s m).keepSeparator = s.keepSeparator
  ∧ (ChunkFile.chunkingOptionOnChange s m).semanticChunkSize = s.semanticChunkSize
  ∧ (ChunkFile.chunkingOptionOnChange s m).semanticChunkOverlap
      = s.semanticChunkOverlap
  ∧ (ChunkFile.chunkingOptionOnChange s m).semanticSentenceSeparator
      = s.semanticSentenceSeparator
  ∧ (ChunkFile.chunkingOptionOnChange s m).semanticCustomSentenceSeparator
      = s.semanticCustomSentenceSeparator
  ∧ (ChunkFile.chunkingOptionOnChange s m).semanticKeepSeparator
      = s.semanticKeepSeparator
  ∧ (ChunkFile.chunkingOptionOnChange s m).semanticMinChunkSize
      = s.semanticMinChunkSize
  ∧ (ChunkFile.chunkingOptionOnChange s m).semanticMaxChunkSize
      = s.semanticMaxChunkSize
  ∧ (ChunkFile.chunkingOptionOnChange s m).hybridMaxChunkSize = s.hybridMaxChunkSize
  ∧ (ChunkFile.chunkingOptionOnChange s m).hybridMinChunkSize = s.hybridMinChunkSize
  ∧ (ChunkFile.chunkingOptionOnChange s m).hybridParagraphSeparator
      = s.hybridParagraphSeparator
  ∧ (ChunkFile.chunkingOptionOnChange s m).hybridCustomParagraphSeparator
      = s.hybridCustomParagraphSeparator
  ∧ (ChunkFile.chunkingOptionOnChange s m).hybridSentenceSeparator
      = s.hybridSentenceSeparator
  ∧ (ChunkFile.chunkingOptionOnChange s m).hybridCustomSentenceSeparator
      = s.hybridCustomSentenceSeparator
  ∧ (ChunkFile.chunkingOptionOnChange s m).hybridChunkSize = s.hybridChunkSize
  ∧ (ChunkFile.chunkingOptionOnChange s m).hybridChunkOverlap = s.hybridChunkOverlap
  ∧ (ChunkFile.chunkingOptionOnChange s m).hybridKeepSeparator = s.hybridKeepSeparator
  ∧ (ChunkFile.chunkingOptionOnChange s m).hybridSemanticThreshold
      = s.hybridSemanticThreshold :=
  ⟨rfl, rfl, rfl, rfl, rfl, rfl, rfl, rfl, rfl, rfl, rfl, rfl, rfl, rfl, rfl, rfl,
   rfl, rfl, rfl, rfl, rfl, rfl, rfl, rfl, rfl, rfl, rfl, rfl, rfl, rfl, rfl, rfl⟩

/-- A refresh environment whose fetches all succeed with empty lists. -/
def emptyChunkRefreshEnv : ChunkFile.RefreshEnv :=
  { loadedOutcome := .success (.arr []), chunkedOutcome := .success (.arr []),
    detailFor := fun _ => .transportError "" }

/-- A Load-page refresh environment that succeeds with an empty list. -/
def emptyLoadRefreshEnv : LoadFile.RefreshEnv :=
  { outcome := .success (.arr []) }

/-- C3: in every stage, submitting with no document/file or no method
selected issues no network request and leaves the state unchanged except
for the missing-selection status message. -/
theorem c3_missing_selection_no_request :
    (∀ (s : ChunkFileState) (env : ChunkFile.Env),
        s.selectedDoc = "" ∨ s.chunkingOption = "" →
        ChunkFile.handleChunk s env
          = ([], { s with status := "请选择文档和分块方法" }))
  ∧ (∀ (s : LoadFileState) (env : LoadFile.Env),
        s.file = none ∨ s.loadingMethod = "" →
        LoadFile.handleProcess s env
          = ([], { s with status := "请选择所有必需的选项" }))
  ∧ (∀ (s : ParseFileState) (env : ParseFile.Env),
        s.file = none ∨ s.loadingMethod = "" ∨ s.parsingOption = "" →
        ParseFile.handleProcess s env
          = ([], { s with status := "请选择所有必需的选项" })) := by
  refine ⟨?_, ?_, ?_⟩
  · intro s env h
    simp [ChunkFile.handleChunk, h]
  · intro s env h
    rcases h with h | h
    · simp [LoadFile.handleProcess, h]
    · cases hf : s.file with
      | none => simp [LoadFile.handleProcess, hf]
      | some f => simp [LoadFile.handleProcess, hf, h]
  · intro s env h
    rcases h with h | h
    · simp [ParseFile.handleProcess, h]
    · cases hf : s.file with
      | none => simp [ParseFile.handleProcess, hf]
      | some f => simp [ParseFile.handleProcess, hf, h]

/-- An environment for a Chunk submit whose POST would fail in transport
(no fetch outcome is ever consulted on the guard path). -/
def c3ChunkEnv : ChunkFile.Env :=
  { chunkResp := .transportError "unused", refresh := emptyChunkRefreshEnv }

/-- An environment for a Load submit on the guard path. -/
def c3LoadEnv : LoadFile.Env :=
  { loadResp := .transportError "unused", refresh := emptyLoadRefreshEnv }

/-- An environment for a Parse submit on the guard path. -/
def c3ParseEnv : ParseFile.Env :=
  { parseResp := .transportError "unused" }

/-- Witness for C3 at the initial states (nothing selected anywhere). -/
theorem c3_missing_selection_no_request_witness :
    (initialChunkFileState.selectedDoc = "" ∨ initialChunkFileState.chunkingOption = "")
  ∧ ChunkFile.handleChunk initialChunkFileState c3ChunkEnv
      = ([], { initialChunkFileState with status := "请选择文档和分块方法" })
  ∧ LoadFile.handleProcess initialLoadFileState c3LoadEnv
      = ([], { initialLoadFileState with status := "请选择所有必需的选项" })
  ∧ ParseFile.handleProcess initialParseFileState c3ParseEnv
      = ([], { initialParseFileState with status := "请选择所有必需的选项" }) :=
  ⟨Or.inl rfl,
   c3_missing_selection_no_request.1 initialChunkFileState c3ChunkEnv (Or.inl rfl),
   c3_missing_selection_no_request.2.1 initialLoadFileState c3LoadEnv (Or.inl rfl),
   c3_missing_selection_no_request.2.2 initialParseFileState c3ParseEnv (Or.inl rfl)⟩

/-- A loaded result whose `chunks` key is absent from the payload. -/
def c4LoadedMissing : LoadedContent :=
  { filename := some "report.pdf", total_pages := some 2, total_chunks := some 2,
    loading_method := some "pymupdf", chunking_strategy := none,
    loading_strategy := none, chunking_method := none, timestamp := none,
    chunks := .missing }

/-- C4 counterexample: the Load preview throws a `TypeError`
(`loadedContent.chunks.map` on `undefined`) instead of rendering the
empty-state marker when the result's `chunks` field is missing. -/
theorem c4_counterexample :
    LoadFile.renderPreview (some c4LoadedMissing) = Except.error JsError.typeError :=
  rfl

/-- C4 (amended): only the Parse preview renders the defined empty-state
marker for a missing or non-array segments field; the Chunk preview does
not throw but renders the info block with zero rows and no marker; the
Load preview throws a `TypeError` whenever `chunks` is not an actual
array. -/
theorem c4_amended_preview_behavior :
    (∀ (m : Option ParsedMeta) (v : SegField ParsedItem), v.isArr = false →
        ParseFile.renderPreview (some { metadata := m, content := v })
          = ParseFile.PreviewOut.emptyMarker "无内容，建议检查后端返回结构或文档格式")
  ∧ (∀ c : ChunkResult, c.chunks.isArr = false →
        ChunkFile.renderPreview (some c) = ChunkFile.PreviewOut.info c [])
  ∧ (∀ lc : LoadedContent, lc.chunks.isArr = false →
        LoadFile.renderPreview (some lc) = Except.error JsError.typeError) := by
  refine ⟨?_, ?_, ?_⟩
  · intro m v h
    cases v <;> simp_all [ParseFile.renderPreview, SegField.isArr]
  · intro c h
    rcases hc : c.chunks with _ | _ | _ | xs <;>
      simp_all [ChunkFile.renderPreview, SegField.isArr]
  · intro lc h
    rcases hc : lc.chunks with _ | _ | _ | xs <;>
      by_cases hm : lc.loading_method = some "text" <;>
        simp_all [LoadFile.renderPreview, SegField.isArr, jsIndexZero, jsArrayMap]

/-- A chunk result whose `chunks` key holds a non-array value. -/
def c4ChunkNotArray : ChunkResult :=
  { filename := some "report", total_pages := some 2, total_chunks := some 2,
    loading_method := some "pymupdf", chunking_method := some "by_pages",
    chunking_config := none, timestamp := none, chunks := .notArrayVal }

/-- Witness for C4 (amended) at concrete malformed results. -/
theorem c4_amended_preview_behavior_witness :
    (SegField.notArrayVal : SegField ParsedItem).isArr = false
  ∧ ParseFile.renderPreview
      (some { metadata := none, content := SegField.notArrayVal })
      = ParseFile.PreviewOut.emptyMarker "无内容，建议检查后端返回结构或文档格式"
  ∧ ChunkFile.renderPreview (some c4ChunkNotArray)
      = ChunkFile.PreviewOut.info c4ChunkNotArray []
  ∧ LoadFile.renderPreview (some c4LoadedMissing) = Except.error JsError.typeError :=
  ⟨rfl,
   c4_amended_preview_behavior.1 none SegField.notArrayVal rfl,
   c4_amended_preview_behavior.2.1 c4ChunkNotArray rfl,
   c4_amended_preview_behavior.2.2 c4LoadedMissing rfl⟩

/-- A Chunk-page state ready to submit. -/
def c5ChunkState : ChunkFileState :=
  { initialChunkFileState with selectedDoc := "report" }

/-- A Load-page state with a CSV file chosen. -/
def c5LoadState : LoadFileState :=
  { initialLoadFileState with file := some ⟨"data.csv"⟩, loadingMethod := "csv" }

/-- A Parse-page state with a PDF chosen. -/
def c5ParseState : ParseFileState :=
  { initialParseFileState with file := some ⟨"report.pdf"⟩ }

/-- A `/parse` response: HTTP 500 with no detail. -/
def c5ParseEnv : ParseFile.Env :=
  { parseResp := .httpError 500 none }

/-- The parsed content of the artifact `foo` used in the C6 scenario. -/
def c6Content : ParsedContent :=
  { metadata := some { total_pages := some 3, parsing_method := some "all_text",
                       timestamp := none },
    content := .arr [{ type := some "text", page := some 1, level := none,
                       title := none, content := "hello" }] }

/-- A Parse-page state listing two parsed artifacts. -/
def c6ParseState : ParseFileState :=
  { initialParseFileState with parsedDocs := [⟨"foo"⟩, ⟨"bar"⟩] }

/-- C6 counterexample: after viewing artifact `foo` (so its content is the
displayed result), deleting `foo` leaves the displayed result in place —
the Parse page's delete never clears `parsedContent`, contradicting the
claim that deleting the displayed artifact returns the stage to Idle. -/
theorem c6_counterexample :
    (ParseFile.handleDeleteParsed
        (ParseFile.handleViewParsed c6ParseState "foo" (.success c6Content)).2
        "foo" { confirmed := true, delOutcome := .response true 200 }).2.parsedContent
      = some c6Content
  ∧ some c6Content ≠ (none : Option ParsedContent) :=
  ⟨rfl, by simp⟩

/-- C6 (amended): in the Load and Chunk stages a successful delete clears
the selection and the displayed result exactly when the deleted name
matches the current document selection, and leaves the displayed result
unchanged otherwise; in the Parse stage a delete never changes the
displayed result. -/
theorem c6_amended_delete_clearing :
    (∀ (s : ChunkFileState) (dn : String) (env : ChunkFile.DeleteEnv) (n : Int),
        env.delOutcome = .response true n →
        ((s.selectedDoc = dn →
            (ChunkFile.handleDeleteDocument s dn env).2.selectedDoc = ""
          ∧ (ChunkFile.handleDeleteDocument s dn env).2.chunks = none)
         ∧ (s.selectedDoc ≠ dn →
            (ChunkFile.handleDeleteDocument s dn env).2.chunks = s.chunks)))
  ∧ (∀ (s : LoadFileState) (dn : String) (env : LoadFile.DeleteEnv) (n : Int),
        env.delOutcome = .response true n →
        ((LoadFile.optNameMatches s.selectedDoc dn = true →
            (LoadFile.handleDeleteDocument s dn env).2.selectedDoc = none
          ∧ (LoadFile.handleDeleteDocument s dn env).2.loadedContent = none)
         ∧ (LoadFile.optNameMatches s.selectedDoc dn = false →
            (LoadFile.handleDeleteDocument s dn env).2.loadedContent
              = s.loadedContent)))
  ∧ (∀ (s : ParseFileState) (dn : String) (env : ParseFile.DeleteEnv),
        (ParseFile.handleDeleteParsed s dn env).2.parsedContent
          = s.parsedContent) := by
  refine ⟨?_, ?_, ?_⟩
  · intro s dn env n he
    constructor
    · intro hsel
      simp [ChunkFile.handleDeleteDocument, he, hsel]
    · intro hsel
      simp only [ChunkFile.handleDeleteDocument, he]
      simp [hsel]
      exact (chunkRefresh_frame _ _).1
  · intro s dn env n he
    constructor
    · intro hsel
      simp [LoadFile.handleDeleteDocument, he, hsel]
    · intro hsel
      simp only [LoadFile.handleDeleteDocument, he]
      simp [hsel]
      exact (loadRefresh_spec _ _).2.1
  · intro s dn env
    by_cases hc : env.confirmed
    · cases hd : env.delOutcome <;> simp [ParseFile.handleDeleteParsed, hc, hd]
    · simp [ParseFile.handleDeleteParsed, hc]

/-- A displayed chunk result for the C6 witness. -/
def c6ChunkRes : ChunkResult :=
  { filename := some "doc1", total_pages := some 1, total_chunks := some 1,
    loading_method := none, chunking_method := none, chunking_config := none,
    timestamp := none, chunks := .arr [] }

/-- A Chunk-page state displaying a result for selection `doc1`. -/
def c6ChunkSt : ChunkFileState :=
  { initialChunkFileState with selectedDoc := "doc1", chunks := some c6ChunkRes }

/-- A successful DELETE environment for the Chunk page. -/
def c6ChunkDelEnv : ChunkFile.DeleteEnv :=
  { delOutcome := .response true 200, refresh := emptyChunkRefreshEnv }

/-- A displayed loaded result for the C6 witness. -/
def c6Loaded : LoadedContent :=
  { filename := some "doc2", total_pages := some 1, total_chunks := some 1,
    loading_method := some "pymupdf", chunking_strategy := none,
    loading_strategy := none, chunking_method := none, timestamp := none,
    chunks := .arr [] }

/-- A Load-page state with `doc2` selected and displayed. -/
def c6LoadSt : LoadFileState :=
  { initialLoadFileState with
    selectedDoc := some ⟨"doc2"⟩,
    loadedContent := some c6Loaded }

/-- A successful DELETE environment for the Load page. -/
def c6LoadDelEnv : LoadFile.DeleteEnv :=
  { delOutcome := .response true 200, refresh := emptyLoadRefreshEnv }

/-- Witness for C6 (amended) at concrete deletes in every stage. -/
theorem c6_amended_delete_clearing_witness :
    ((c6ChunkSt.selectedDoc = "doc1" →
        (ChunkFile.handleDeleteDocument c6ChunkSt "doc1" c6ChunkDelEnv).2.selectedDoc
          = ""
      ∧ (ChunkFile.handleDeleteDocument c6ChunkSt "doc1" c6ChunkDelEnv).2.chunks
          = none)
     ∧ (c6ChunkSt.selectedDoc ≠ "doc1" →
        (ChunkFile.handleDeleteDocument c6ChunkSt "doc1" c6ChunkDelEnv).2.chunks
          = c6ChunkSt.chunks))
  ∧ ((LoadFile.optNameMatches c6LoadSt.selectedDoc "doc2" = true →
        (LoadFile.handleDeleteDocument c6LoadSt "doc2" c6LoadDelEnv).2.selectedDoc
          = none
      ∧ (LoadFile.handleDeleteDocument c6LoadSt "doc2" c6LoadDelEnv).2.loadedContent
          = none)
     ∧ (LoadFile.optNameMatches c6LoadSt.selectedDoc "doc2" = false →
        (LoadFile.handleDeleteDocument c6LoadSt "doc2" c6LoadDelEnv).2.loadedContent
          = c6LoadSt.loadedContent))
  ∧ (ParseFile.handleDeleteParsed c6ParseState "foo"
        { confirmed := true, delOutcome := .response true 200 }).2.parsedContent
      = c6ParseState.parsedContent :=
  ⟨c6_amended_delete_clearing.1 c6ChunkSt "doc1" c6ChunkDelEnv 200 rfl,
   c6_amended_delete_clearing.2.1 c6LoadSt "doc2" c6LoadDelEnv 200 rfl,
   c6_amended_delete_clearing.2.2 c6ParseState "foo"
     { confirmed := true, delOutcome := .response true 200 }⟩

/-- C7 counterexample: a successful Parse-stage delete issues only the
DELETE request — no `GET /parsed-docs` list refresh — and updates the
local list by an incremental `filter`, contradicting the claim that every
successful delete re-issues the registry list request and never patches
locally. -/
theorem c7_counterexample :
    ParseFile.handleDeleteParsed c6ParseState "foo"
        { confirmed := true, delOutcome := .response true 200 }
      = ([Request.deleteParsedDoc "foo"],
         { c6ParseState with parsedDocs := [⟨"bar"⟩] }) :=
  rfl

/-- C7 (amended): in the Load and Chunk stages every successful submit
and every successful delete re-issues the loaded-list registry request
and performs no local incremental update — when the re-issued list fetch
succeeds, the registry state is replaced wholesale by the fetched list
(and, for the Chunk page's chunked registry, by the fetched list merged
with its details), never computed from the previous list; in the Parse
stage a successful submit issues no registry list request at all, and a
confirmed delete issues only the DELETE, patching the local list by
`filter` instead of re-listing. -/
theorem c7_amended_refresh_discipline :
    (∀ (s : ChunkFileState) (env : ChunkFile.Env) (data : ChunkResult),
        s.selectedDoc ≠ "" → s.chunkingOption ≠ "" →
        env.chunkResp = .success data →
        Request.getDocuments "loaded" ∈ (ChunkFile.handleChunk s env).1
      ∧ (∀ docsVal : ListFieldVal,
           env.refresh.loadedOutcome = .success docsVal →
           (ChunkFile.handleChunk s env).2.loadedDocuments = docsVal)
      ∧ (∀ (docsVal : ListFieldVal) (docs : List DocSummary),
           env.refresh.loadedOutcome = .success docsVal →
           env.refresh.chunkedOutcome = .success (.arr docs) →
           (ChunkFile.handleChunk s env).2.chunkedDocuments
             = docs.map (fun d =>
                 ChunkFile.mergeChunkedDetail d (env.refresh.detailFor d.name))))
  ∧ (∀ (s : ChunkFileState) (dn : String) (env : ChunkFile.DeleteEnv) (n : Int),
        env.delOutcome = .response true n →
        Request.getDocuments "loaded"
          ∈ (ChunkFile.handleDeleteDocument s dn env).1
      ∧ (∀ docsVal : ListFieldVal,
           env.refresh.loadedOutcome = .success docsVal →
           (ChunkFile.handleDeleteDocument s dn env).2.loadedDocuments = docsVal)
      ∧ (∀ (docsVal : ListFieldVal) (docs : List DocSummary),
           env.refresh.loadedOutcome = .success docsVal →
           env.refresh.chunkedOutcome = .success (.arr docs) →
           (ChunkFile.handleDeleteDocument s dn env).2.chunkedDocuments
             = docs.map (fun d =>
                 ChunkFile.mergeChunkedDetail d (env.refresh.detailFor d.name))))
  ∧ (∀ (s : LoadFileState) (f : FileRef) (env : LoadFile.Env) (lc : LoadedContent),
        s.file = some f → s.loadingMethod ≠ "" → env.loadResp = .success lc →
        Request.getDocuments "loaded" ∈ (LoadFile.handleProcess s env).1
      ∧ (∀ docsVal : ListFieldVal, env.refresh.outcome = .success docsVal →
           (LoadFile.handleProcess s env).2.documents = docsVal))
  ∧ (∀ (s : LoadFileState) (dn : String) (env : LoadFile.DeleteEnv) (n : Int),
        env.delOutcome = .response true n →
        Request.getDocuments "loaded"
          ∈ (LoadFile.handleDeleteDocument s dn env).1
      ∧ (∀ docsVal : ListFieldVal, env.refresh.outcome = .success docsVal →
           (LoadFile.handleDeleteDocument s dn env).2.documents = docsVal))
  ∧ (∀ (s : ParseFileState) (dn : String) (env : ParseFile.DeleteEnv)
        (n : Int) (ok : Bool),
        env.confirmed = true → env.delOutcome = .response ok n →
        ParseFile.handleDeleteParsed s dn env
          = ([Request.deleteParsedDoc dn],
             { s with parsedDocs := s.parsedDocs.filter (fun d => d.name != dn) }))
  ∧ (∀ (s : ParseFileState) (env : ParseFile.Env),
        Request.getParsedDocs ∉ (ParseFile.handleProcess s env).1) := by
  refine ⟨?_, ?_, ?_, ?_, ?_, ?_⟩
  · intro s env data h1 h2 he
    have hcond : ¬(s.selectedDoc = "" ∨ s.chunkingOption = "") := by
      rintro (h | h)
      exacts [h1 h, h2 h]
    refine ⟨?_, ?_, ?_⟩
    · simp only [ChunkFile.handleChunk, he]
      rw [if_neg hcond]
      exact List.mem_cons_of_mem _ (chunkRefresh_issues_list _ _)
    · intro docsVal hl
      simp only [ChunkFile.handleChunk, he]
      rw [if_neg hcond]
      exact (chunkRefresh_replaces_lists _ _ _ hl).1
    · intro docsVal docs hl hc
      simp only [ChunkFile.handleChunk, he]
      rw [if_neg hcond]
      exact (chunkRefresh_replaces_lists _ _ _ hl).2 docs hc
  · intro s dn env n he
    refine ⟨?_, ?_, ?_⟩
    · simp only [ChunkFile.handleDeleteDocument, he, if_true]
      exact List.mem_cons_of_mem _ (chunkRefresh_issues_list _ _)
    · intro docsVal hl
      simp only [ChunkFile.handleDeleteDocument, he, if_true]
      split
      · exact (chunkRefresh_replaces_lists _ _ _ hl).1
      · exact (chunkRefresh_replaces_lists _ _ _ hl).1
    · intro docsVal docs hl hc
      simp only [ChunkFile.handleDeleteDocument, he, if_true]
      split
      · exact (chunkRefresh_replaces_lists _ _ _ hl).2 docs hc
      · exact (chunkRefresh_replaces_lists _ _ _ hl).2 docs hc
  · intro s f env lc hf hm he
    constructor
    · simp only [LoadFile.handleProcess, hf, he]
      rw [if_neg hm]
      refine List.mem_cons_of_mem _ ?_
      rw [(loadRefresh_spec _ _).1]
      simp
    · intro docsVal hl
      simp only [LoadFile.handleProcess, hf, he]
      rw [if_neg hm]
      exact loadRefresh_replaces_list _ _ _ hl
  · intro s dn env n he
    constructor
    · simp only [LoadFile.handleDeleteDocument, he, if_true]
      refine List.mem_cons_of_mem _ ?_
      rw [(loadRefresh_spec _ _).1]
      simp
    · intro docsVal hl
      simp only [LoadFile.handleDeleteDocument, he, if_true]
      split
      · exact loadRefresh_replaces_list _ _ _ hl
      · exact loadRefresh_replaces_list _ _ _ hl
  · intro s dn env n ok hc he
    simp [ParseFile.handleDeleteParsed, hc, he]
  · intro s env
    cases hf : s.file with
    | none => simp [ParseFile.handleProcess, hf]
    | some f =>
        by_cases hg : s.loadingMethod = "" ∨ s.parsingOption = ""
        · simp [ParseFile.handleProcess, hf, hg]
        · cases hr : env.parseResp <;>
            simp [ParseFile.handleProcess, hf, hg, hr]

/-- A successful `/chunk` submit environment. -/
def c7ChunkEnv : ChunkFile.Env :=
  { chunkResp := .success c6ChunkRes, refresh := emptyChunkRefreshEnv }

/-- A successful `/load` submit environment. -/
def c7LoadEnv : LoadFile.Env :=
  { loadResp := .success c6Loaded, refresh := emptyLoadRefreshEnv }

/-- Witness for C7 (amended) at concrete submits and deletes: each
Load/Chunk operation issues the list request and replaces its registry
lists with the (empty) fetched ones, while the Parse delete patches
locally. -/
theorem c7_amended_refresh_discipline_witness :
    Request.getDocuments "loaded" ∈ (ChunkFile.handleChunk c5ChunkState c7ChunkEnv).1
  ∧ (ChunkFile.handleChunk c5ChunkState c7ChunkEnv).2.loadedDocuments
      = ListFieldVal.arr []
  ∧ (ChunkFile.handleChunk c5ChunkState c7ChunkEnv).2.chunkedDocuments = []
  ∧ Request.getDocuments "loaded"
      ∈ (ChunkFile.handleDeleteDocument c6ChunkSt "doc1" c6ChunkDelEnv).1
  ∧ (ChunkFile.handleDeleteDocument c6ChunkSt "doc1" c6ChunkDelEnv).2.loadedDocuments
      = ListFieldVal.arr []
  ∧ (ChunkFile.handleDeleteDocument c6ChunkSt "doc1" c6ChunkDelEnv).2.chunkedDocuments
      = []
  ∧ Request.getDocuments "loaded" ∈ (LoadFile.handleProcess c5LoadState c7LoadEnv).1
  ∧ (LoadFile.handleProcess c5LoadState c7LoadEnv).2.documents = ListFieldVal.arr []
  ∧ Request.getDocuments "loaded"
      ∈ (LoadFile.handleDeleteDocument c6LoadSt "doc2" c6LoadDelEnv).1
  ∧ (LoadFile.handleDeleteDocument c6LoadSt "doc2" c6LoadDelEnv).2.documents
      = ListFieldVal.arr []
  ∧ ParseFile.handleDeleteParsed c6ParseState "bar"
        { confirmed := true, delOutcome := .response true 200 }
      = ([Request.deleteParsedDoc "bar"],
         { c6ParseState with
             parsedDocs := c6ParseState.parsedDocs.filter (fun d => d.name != "bar") })
  ∧ Request.getParsedDocs ∉ (ParseFile.handleProcess c5ParseState c5ParseEnv).1 :=
  ⟨(c7_amended_refresh_discipline.1 c5ChunkState c7ChunkEnv c6ChunkRes
      (by decide) (by decide) rfl).1,
   (c7_amended_refresh_discipline.1 c5ChunkState c7ChunkEnv c6ChunkRes
      (by decide) (by decide) rfl).2.1 (ListFieldVal.arr []) rfl,
   (c7_amended_refresh_discipline.1 c5ChunkState c7ChunkEnv c6ChunkRes
      (by decide) (by decide) rfl).2.2 (ListFieldVal.arr []) [] rfl rfl,
   (c7_amended_refresh_discipline.2.1 c6ChunkSt "doc1" c6ChunkDelEnv 200 rfl).1,
   (c7_amended_refresh_discipline.2.1 c6ChunkSt "doc1" c6ChunkDelEnv 200 rfl).2.1
     (ListFieldVal.arr []) rfl,
   (c7_amended_refresh_discipline.2.1 c6ChunkSt "doc1" c6ChunkDelEnv 200 rfl).2.2
     (ListFieldVal.arr []) [] rfl rfl,
   (c7_amended_refresh_discipline.2.2.1 c5LoadState ⟨"data.csv"⟩ c7LoadEnv c6Loaded
      rfl (by decide) rfl).1,
   (c7_amended_refresh_discipline.2.2.1 c5LoadState ⟨"data.csv"⟩ c7LoadEnv c6Loaded
      rfl (by decide) rfl).2 (ListFieldVal.arr []) rfl,
   (c7_amended_refresh_discipline.2.2.2.1 c6LoadSt "doc2" c6LoadDelEnv 200 rfl).1,
   (c7_amended_refresh_discipline.2.2.2.1 c6LoadSt "doc2" c6LoadDelEnv 200 rfl).2
     (ListFieldVal.arr []) rfl,
   c7_amended_refresh_discipline.2.2.2.2.1 c6ParseState "bar"
     { confirmed := true, delOutcome := .response true 200 } 200 true rfl rfl,
   c7_amended_refresh_discipline.2.2.2.2.2 c5ParseState c5ParseEnv⟩

/-- C8: for every Chunk-stage submission the serialized `doc_id` ends in
`.json` — the suffix is kept as-is when the selected name already has it
and appended exactly once otherwise — and the body carries the full
flattened parameter set of all six variants: every field other than
`chunking_option` is independent of which chunking option is active. -/
theorem c8_doc_id_suffix_and_flat_params (s : ChunkFileState)
    (h : s.selectedDoc ≠ "") :
    endsWithStr (ChunkFile.requestBody s).doc_id ".json" = true
  ∧ (endsWithStr s.selectedDoc ".json" = true →
       (ChunkFile.requestBody s).doc_id = s.selectedDoc)
  ∧ (endsWithStr s.selectedDoc ".json" = false →
       (ChunkFile.requestBody s).doc_id = s.selectedDoc ++ ".json")
  ∧ (∀ opt : String,
       ChunkFile.requestBody { s with chunkingOption := opt }
         = { ChunkFile.requestBody s with chunking_option := opt }) := by
  refine ⟨?_, ?_, ?_, fun opt => rfl⟩
  · cases hb : endsWithStr s.selectedDoc ".json" with
    | true => simp [ChunkFile.requestBody, hb]
    | false => simp [ChunkFile.requestBody, hb, endsWithStr_append]
  · intro hj
    simp [ChunkFile.requestBody, hj]
  · intro hj
    simp [ChunkFile.requestBody, hj]

/-- Witness for C8 at a selected document without the suffix. -/
theorem c8_doc_id_suffix_and_flat_params_witness :
    c5ChunkState.selectedDoc ≠ ""
  ∧ (endsWithStr (ChunkFile.requestBody c5ChunkState).doc_id ".json" = true
     ∧ (endsWithStr c5ChunkState.selectedDoc ".json" = true →
          (ChunkFile.requestBody c5ChunkState).doc_id = c5ChunkState.selectedDoc)
     ∧ (endsWithStr c5ChunkState.selectedDoc ".json" = false →
          (ChunkFile.requestBody c5ChunkState).doc_id
            = c5ChunkState.selectedDoc ++ ".json")
     ∧ (∀ opt : String,
          ChunkFile.requestBody { c5ChunkState with chunkingOption := opt }
            = { ChunkFile.requestBody c5ChunkState with chunking_option := opt })) :=
  ⟨by decide, c8_doc_id_suffix_and_flat_params c5ChunkState (by decide)⟩

/-- The result displayed before the selection change in the C9 scenario. -/
def c9Res : ChunkResult :=
  { filename := some "old", total_pages := some 1, total_chunks := some 1,
    loading_method := none, chunking_method := none, chunking_config := none,
    timestamp := none, chunks := .arr [] }

/-- C9 counterexample: selecting a different document leaves the
previously displayed result in place — the selection handler writes only
`selectedDoc` and does not clear `chunks`, contradicting the claim that
selecting a document clears the previous result. -/
theorem c9_counterexample :
    (ChunkFile.selectedDocOnChange
        { initialChunkFileState with selectedDoc := "doc1", chunks := some c9Res }
        "doc2").chunks = some c9Res
  ∧ some c9Res ≠ (none : Option ChunkResult) :=
  ⟨rfl, by simp⟩

/-- C9 (amended): selecting an input document records the selection (and,
on the Load page, the chosen file) so the stage is configured, but leaves
the previously displayed result untouched — it is only cleared by the next
submit or a matching delete. -/
theorem c9_amended_select_keeps_result :
    (∀ (s : ChunkFileState) (v : String),
        (ChunkFile.selectedDocOnChange s v).selectedDoc = v
      ∧ (ChunkFile.selectedDocOnChange s v).chunks = s.chunks
      ∧ (ChunkFile.selectedDocOnChange s v).status = s.status)
  ∧ (∀ (s : LoadFileState) (f : FileRef),
        (LoadFile.handleFileChange s (some f)).file = some f
      ∧ (LoadFile.handleFileChange s (some f)).loadedContent = s.loadedContent) := by
  refine ⟨fun s v => ⟨rfl, rfl, rfl⟩, fun s f => ?_⟩
  simp only [LoadFile.handleFileChange]
  split_ifs <;> exact ⟨rfl, rfl⟩

/-- An environment whose `/chunk` POST fails in transport. -/
def c10ChunkEnv : ChunkFile.Env :=
  { chunkResp := .transportError "Failed to fetch",
    refresh := emptyChunkRefreshEnv }

/-- An environment whose `/load` POST fails in transport. -/
def c10LoadEnv : LoadFile.Env :=
  { loadResp := .transportError "Failed to fetch", refresh := emptyLoadRefreshEnv }

/-- An environment whose `/parse` POST fails in transport. -/
def c10ParseEnv : ParseFile.Env :=
  { parseResp := .transportError "Failed to fetch" }

/-- C10: every stage's submit clears the displayed result before issuing
the POST, so after a failed submission (transport or HTTP error) the
previously displayed result is gone — the POST is the only request issued
and the stored result is `none`, not the pre-submit value. -/
theorem c10_submit_clears_result_before_request :
    (∀ (s : ChunkFileState) (env : ChunkFile.Env),
        s.selectedDoc ≠ "" → s.chunkingOption ≠ "" → env.chunkResp.isErr = true →
        (ChunkFile.handleChunk s env).2.chunks = none
      ∧ (ChunkFile.handleChunk s env).1
          = [Request.postChunk (ChunkFile.requestBody s)])
  ∧ (∀ (s : LoadFileState) (f : FileRef) (env : LoadFile.Env),
        s.file = some f → s.loadingMethod ≠ "" → env.loadResp.isErr = true →
        (LoadFile.handleProcess s env).2.loadedContent = none
      ∧ (LoadFile.handleProcess s env).1
          = [Request.postLoad (LoadFile.formData s f)])
  ∧ (∀ (s : ParseFileState) (f : FileRef) (env : ParseFile.Env),
        s.file = some f → s.loadingMethod ≠ "" → s.parsingOption ≠ "" →
        env.parseResp.isErr = true →
        (ParseFile.handleProcess s env).2.parsedContent = none
      ∧ (ParseFile.handleProcess s env).1
          = [Request.postParse
               { fileName := f.name, loading_method := s.loadingMethod,
                 parsing_option := s.parsingOption, file_type := s.fileType }]) := by
  refine ⟨?_, ?_, ?_⟩
  · intro s env h1 h2 herr
    have hcond : ¬(s.selectedDoc = "" ∨ s.chunkingOption = "") := by
      rintro (h | h)
      exacts [h1 h, h2 h]
    cases hr : env.chunkResp with
    | transportError m =>
        refine ⟨by simp [ChunkFile.handleChunk, hcond, hr], ?_⟩
        simp [ChunkFile.handleChunk, hcond, hr]
        rfl
    | httpError n d =>
        refine ⟨by simp [ChunkFile.handleChunk, hcond, hr], ?_⟩
        simp [ChunkFile.handleChunk, hcond, hr]
        rfl
    | success data => rw [hr] at herr; simp [PostOutcome.isErr] at herr
  · intro s f env hf hm herr
    cases hr : env.loadResp with
    | transportError m =>
        refine ⟨by simp [LoadFile.handleProcess, hf, hm, hr], ?_⟩
        simp [LoadFile.handleProcess, hf, hm, hr]
        rfl
    | httpError n d =>
        refine ⟨by simp [LoadFile.handleProcess, hf, hm, hr], ?_⟩
        simp [LoadFile.handleProcess, hf, hm, hr]
        rfl
    | success lc => rw [hr] at herr; simp [PostOutcome.isErr] at herr
  · intro s f env hf hm hp herr
    have hcond : ¬(s.loadingMethod = "" ∨ s.parsingOption = "") := by
      rintro (h | h)
      exacts [hm h, hp h]
    cases hr : env.parseResp with
    | transportError m =>
        exact ⟨by simp [ParseFile.handleProcess, hf, hcond, hr],
               by simp [ParseFile.handleProcess, hf, hcond, hr]⟩
    | httpError n d =>
        exact ⟨by simp [ParseFile.handleProcess, hf, hcond, hr],
               by simp [ParseFile.handleProcess, hf, hcond, hr]⟩
    | success pc => rw [hr] at herr; simp [PostOutcome.isErr] at herr

/-- Witness for C10 at concrete transport-failing submissions. -/
theorem c10_submit_clears_result_before_request_witness :
    (c5ChunkState.selectedDoc ≠ "" ∧ c10ChunkEnv.chunkResp.isErr = true)
  ∧ ((ChunkFile.handleChunk c5ChunkState c10ChunkEnv).2.chunks = none
     ∧ (ChunkFile.handleChunk c5ChunkState c10ChunkEnv).1
         = [Request.postChunk (ChunkFile.requestBody c5ChunkState)])
  ∧ ((LoadFile.handleProcess c5LoadState c10LoadEnv).2.loadedContent = none
     ∧ (LoadFile.handleProcess c5LoadState c10LoadEnv).1
         = [Request.postLoad (LoadFile.formData c5LoadState ⟨"data.csv"⟩)])
  ∧ ((ParseFile.handleProcess c5ParseState c10ParseEnv).2.parsedContent = none
     ∧ (ParseFile.handleProcess c5ParseState c10ParseEnv).1
         = [Request.postParse
              { fileName := "report.pdf",
                loading_method := c5ParseState.loadingMethod,
                parsing_option := c5ParseState.parsingOption,
                file_type := c5ParseState.fileType }]) :=
  ⟨⟨by decide, rfl⟩,
   c10_submit_clears_result_before_request.1 c5ChunkState c10ChunkEnv
     (by decide) (by decide) rfl,
   c10_submit_clears_result_before_request.2.1 c5LoadState ⟨"data.csv"⟩ c10LoadEnv
     rfl (by decide) rfl,
   c10_submit_clears_result_before_request.2.2 c5ParseState ⟨"report.pdf"⟩
     c10ParseEnv rfl (by decide) (by decide) rfl⟩
